import Mathlib

/-!
Shallow embedding of the arrow-client discovery pipeline.

Source files:
* `src/main.rs` — `discovery_only_main`, `load_paths_file`, argument loop;
* `src/output.rs` — `scan_result_to_json`, `service_to_json_element`,
  `discovery_block_to_json`, `write_discovery_output`.

Machine integers are modelled as `Nat`/`Int` with explicit `% 2 ^ 16` where a
cast truncates.  Fallible operations return `Except`/`Option`.  The external
scan engine and the wall clock are explicit parameters of the pipeline.
-/

/-- JSON values as produced by the `json` crate.  Object fields are kept in
insertion order (the crate preserves insertion order when dumping). -/
inductive JsonValue where
  | null
  | bool (b : Bool)
  | num (n : Int)
  | str (s : String)
  | arr (elems : List JsonValue)
  | obj (fields : List (String × JsonValue))

/-- Association lookup on JSON object fields: first binding of the key wins. -/
def lookupKey : List (String × JsonValue) → String → Option JsonValue
  | [], _ => none
  | kv :: rest, k => if kv.1 = k then some kv.2 else lookupKey rest k

/-- Field access on a JSON value; `none` on non-objects and missing keys. -/
def JsonValue.getKey? : JsonValue → String → Option JsonValue
  | .obj fields, k => lookupKey fields k
  | _, _ => none

/-- Replace the first binding of `k` or append a new one (models the `json`
crate's index assignment `root[k] = v` on an object). -/
def setKeyFields : List (String × JsonValue) → String → JsonValue → List (String × JsonValue)
  | [], k, v => [(k, v)]
  | kv :: rest, k, v =>
      if kv.1 = k then (kv.1, v) :: rest else kv :: setKeyFields rest k v

/-- Index assignment `j[k] = v`.  On a non-object the crate first replaces the
value by an empty object; the pipeline only ever assigns into objects. -/
def JsonValue.setKey : JsonValue → String → JsonValue → JsonValue
  | .obj fields, k, v => .obj (setKeyFields fields k v)
  | _, k, v => .obj [(k, v)]

/-- Lower-case hexadecimal digit. -/
def hexDigit (n : Nat) : Char :=
  if n < 10 then Char.ofNat (48 + n) else Char.ofNat (87 + n)

/-- Two-digit lower-case hex rendering of a byte. -/
def byteToHex (n : Nat) : String :=
  String.mk [hexDigit ((n / 16) % 16), hexDigit (n % 16)]

/-- JSON string escaping as performed by the `json` crate's `dump`. -/
def escapeChar (c : Char) : String :=
  if c = '"' then "\\\""
  else if c = '\\' then "\\\\"
  else if c = '\n' then "\\n"
  else if c = '\r' then "\\r"
  else if c = '\t' then "\\t"
  else if c = Char.ofNat 8 then "\\b"
  else if c = Char.ofNat 12 then "\\f"
  else if c.toNat < 32 then "\\u00" ++ byteToHex c.toNat
  else String.mk [c]

/-- Serialized JSON string literal (quotes plus escaped content). -/
def dumpString (s : String) : String :=
  "\"" ++ String.join (s.data.map escapeChar) ++ "\""

/-- Compact serialization of a JSON value (the `json` crate's `dump`): no
whitespace, fields in insertion order.  `attach` is the usual idiom to recurse
through the element lists. -/
def JsonValue.dump : JsonValue → String
  | .null => "null"
  | .bool b => cond b "true" "false"
  | .num n => Int.repr n
  | .str s => dumpString s
  | .arr elems =>
      "[" ++ String.intercalate "," (elems.attach.map (fun x => JsonValue.dump x.1)) ++ "]"
  | .obj fields =>
      "\x7b" ++
        String.intercalate ","
          (fields.attach.map (fun x => dumpString x.1.1 ++ ":" ++ JsonValue.dump x.1.2)) ++
        "\x7d"
decreasing_by
  · have h := List.sizeOf_lt_of_mem x.2
    simp only [JsonValue.arr.sizeOf_spec]
    omega
  · have h := List.sizeOf_lt_of_mem x.2
    have h2 : sizeOf x.1.2 < sizeOf x.1 := by
      obtain ⟨⟨k, v⟩, hx⟩ := x
      simp only [Prod.mk.sizeOf_spec]
      omega
    simp only [JsonValue.obj.sizeOf_spec]
    omega

/-- Modelled from the spec: `MacAddr` (`crate::net::raw::ether`, not under
`src/`) is a 48-bit MAC address, six octets. -/
structure MacAddr where
  a : Nat
  b : Nat
  c : Nat
  d : Nat
  e : Nat
  f : Nat
deriving DecidableEq

/-- Modelled from the spec: `MacAddr::zero()`, the all-zero MAC address. -/
def MacAddr.zero : MacAddr := ⟨0, 0, 0, 0, 0, 0⟩

/-- Modelled from the spec: canonical colon-hex rendering of a MAC address
(`format!("{}", mac)`), e.g. `00:00:00:00:00:00`. -/
def formatMac (m : MacAddr) : String :=
  String.intercalate ":" ([m.a, m.b, m.c, m.d, m.e, m.f].map (fun x => byteToHex (x % 256)))

/-- Modelled from the spec: an IPv4 socket address (IP + port), as used for the
default `SocketAddr::from(([0, 0, 0, 0], 0))`. -/
structure SockAddrV4 where
  ip0 : Nat
  ip1 : Nat
  ip2 : Nat
  ip3 : Nat
  port : Nat
deriving DecidableEq

/-- The default address `SocketAddr::from(([0, 0, 0, 0], 0))`. -/
def sockAddrZero : SockAddrV4 := ⟨0, 0, 0, 0, 0⟩

/-- Modelled from the spec: `host:port` rendering of a socket address
(`format!("{}", address)`), e.g. `0.0.0.0:0`. -/
def formatSockAddr (s : SockAddrV4) : String :=
  Nat.repr s.ip0 ++ "." ++ Nat.repr s.ip1 ++ "." ++ Nat.repr s.ip2 ++ "." ++
    Nat.repr s.ip3 ++ ":" ++ Nat.repr s.port

/-- Modelled from the spec: a `Service` record (`crate::svc_table`, not under
`src/`): service-type code (integer), optional MAC address, optional socket
address, optional path string. -/
structure Service where
  svc_type_code : Nat
  mac : Option MacAddr
  address : Option SockAddrV4
  path : Option String
deriving DecidableEq

/-- Modelled from the spec: a `ScanResult` (`crate::scanner::result`, not under
`src/`) is an ordered sequence of `Service` records; `services()` iterates it
in order. -/
structure ScanResult where
  services : List Service
deriving DecidableEq

/-- Modelled from the spec: `SurveyData` maps a textual host address to an
ordered sequence of (probed-path, outcome) pairs; modelled as an ordered
association list. -/
def SurveyData := List (String × List (String × String))

/-- Metadata for the discovery block (`src/output.rs` lines 32-38). -/
structure DiscoveryMetadata where
  paths_rtsp_source : String
  paths_rtsp_entries : List String
  paths_mjpeg_source : String
  paths_mjpeg_entries : List String
  survey : SurveyData

/-- One element of the `services` array (`src/output.rs` lines 101-123,
`service_to_json_element`).  `id` arrives already cast to `u16` at the call
site; `last_seen` is the timestamp captured once per serialization. -/
def service_to_json_element (id : Nat) (svc : Service) (last_seen : Int)
    (default_mac : MacAddr) (default_address : SockAddrV4) : JsonValue :=
  JsonValue.obj
    [ ("id", .num (Int.ofNat id))
    , ("svc_type", .num (Int.ofNat svc.svc_type_code))
    , ("mac", .str (formatMac (svc.mac.getD default_mac)))
    , ("address", .str (formatSockAddr (svc.address.getD default_address)))
    , ("path", .str (svc.path.getD ""))
    , ("static_svc", .bool false)
    , ("last_seen", .num last_seen)
    , ("active", .bool true) ]

/-- The `discovery` block (`src/output.rs` lines 67-99,
`discovery_block_to_json`).  The survey object is built by repeated index
assignment starting from an empty object. -/
def discovery_block_to_json (d : DiscoveryMetadata) : JsonValue :=
  let paths := JsonValue.obj
    [ ("rtsp", .obj
        [ ("source", .str d.paths_rtsp_source)
        , ("entries", .arr (d.paths_rtsp_entries.map .str)) ])
    , ("mjpeg", .obj
        [ ("source", .str d.paths_mjpeg_source)
        , ("entries", .arr (d.paths_mjpeg_entries.map .str)) ]) ]
  let survey_obj := d.survey.foldl
    (fun acc p =>
      acc.setKey p.1
        (.arr (p.2.map (fun q => JsonValue.obj [("path", .str q.1), ("result", .str q.2)]))))
    (JsonValue.obj [])
  JsonValue.obj [("paths", paths), ("survey", survey_obj)]

/-- The whole JSON document (`src/output.rs` lines 45-65,
`scan_result_to_json`).  The impure call `utc_timestamp_sec()` is modelled by
the explicit parameter `now`, captured once at the start of construction.
`(i + 1) as u16` truncates: `(i + 1) % 2 ^ 16`. -/
def scan_result_to_json (result : ScanResult) (discovery : Option DiscoveryMetadata)
    (now : Int) : JsonValue :=
  let default_mac := MacAddr.zero
  let default_address := sockAddrZero
  let last_seen := now
  let services : List JsonValue := result.services.enum.map
    (fun p => service_to_json_element ((p.1 + 1) % 65536) p.2 last_seen default_mac default_address)
  let root := JsonValue.obj [("services", .arr services)]
  match discovery with
  | some d => root.setKey "discovery" (discovery_block_to_json d)
  | none => root

/-- Write sinks produced by a successful `write_discovery_output`
(`src/output.rs` lines 129-149): the bytes sent to stdout (if requested) and
the (path, bytes) pair written to the file (if requested).  A single dump is
computed once and delivered to every configured sink; write failures are I/O
effects outside this pure model. -/
def write_discovery_output (result : ScanResult) (to_stdout : Bool)
    (output_file : Option String) (discovery : Option DiscoveryMetadata)
    (now : Int) : Option String × Option (String × String) :=
  let json := scan_result_to_json result discovery now
  let bytes := json.dump
  (if to_stdout then some bytes else none, output_file.map (fun p => (p, bytes)))

/-- Observer: number of elements of the serialized `services` array. -/
def servicesCount (j : JsonValue) : Nat :=
  match j.getKey? "services" with
  | some (.arr elems) => elems.length
  | _ => 0

/-- Observer: the `id` field of a serialized service element. -/
def idOf (e : JsonValue) : Option Int :=
  match e.getKey? "id" with
  | some (.num n) => some n
  | _ => none

/-- Observer: the sequence of `id` fields of the serialized `services` array. -/
def serviceIds (j : JsonValue) : List Int :=
  match j.getKey? "services" with
  | some (.arr elems) => elems.filterMap idOf
  | _ => []

/-- An I/O error: failing to open a file, or failing to read a line from an
already-open file. -/
inductive IOError where
  | openFailed
  | readFailed (msg : String)
deriving DecidableEq

deriving instance DecidableEq for Except

/-- A filesystem snapshot for the path-list files.  `files p = none` models a
path that cannot be opened (`File::open` fails); `files p = some outcomes`
models an openable file whose successive `lines()` reads yield `outcomes`
(each one either a line or a read error). -/
structure FS where
  files : String → Option (List (Except IOError String))

/-- Rust `char::is_whitespace` as used by `str::trim` (modelled by Lean's
`Char.isWhitespace`; the whitespace class is immaterial to the claims). -/
def isWs (c : Char) : Bool := c.isWhitespace

/-- Rust `str::trim`: drop leading and trailing whitespace. -/
def trimS (s : String) : String :=
  String.mk (((s.data.dropWhile isWs).reverse.dropWhile isWs).reverse)

/-- Rust `line.starts_with('#')`: the first character equals `c`. -/
def startsWithChar (s : String) (c : Char) : Bool := s.data.head? == some c

/-- Rust `arg.starts_with("--…=")` on the long flags. -/
def startsWithStr (s p : String) : Bool := p.data.isPrefixOf s.data

/-- Rust `&arg["--…=".len()..]`: drop the flag prefix (the prefixes are ASCII,
so byte indexing and character indexing agree). -/
def stripPrefixLen (s p : String) : String := String.mk (s.data.drop p.data.length)

/-- The filter of `load_paths_file` (`src/main.rs` line 186):
`!line.starts_with('#') && !line.trim().is_empty()`. -/
def keepLine (line : String) : Bool :=
  !(startsWithChar line '#') && !((trimS line).data.isEmpty)

/-- The reading loop of `load_paths_file` (`src/main.rs` lines 184-189): push
every kept line in order; a line read error aborts with that error (`line?`). -/
def collectPaths : List (Except IOError String) → List String → Except IOError (List String)
  | [], acc => .ok acc
  | .error e :: _, _ => .error e
  | .ok line :: rest, acc =>
      collectPaths rest (if keepLine line then acc ++ [line] else acc)

/-- `load_paths_file` (`src/main.rs` lines 179-191): propagate the open error
(`File::open(path)?`), otherwise run the reading loop. -/
def load_paths_file (fs : FS) (path : String) : Except IOError (List String) :=
  match fs.files path with
  | none => .error .openFailed
  | some outcomes => collectPaths outcomes []

/-- The call sites `load_paths_file(&f).unwrap_or_default()` (`src/main.rs`
lines 133-134): any error is swallowed into the empty list. -/
def loadPathsOrDefault (fs : FS) (path : String) : List String :=
  match load_paths_file fs path with
  | .ok paths => paths
  | .error _ => []

/-- Rust `str::parse::<u64>`: an optional leading `+`, then one or more ASCII
digits, and the value must fit in 64 bits. -/
def parseDigits (l : List Char) : Option Nat :=
  if l ≠ [] ∧ l.all Char.isDigit then
    let v := l.foldl (fun a c => a * 10 + (c.toNat - 48)) 0
    if v < 2 ^ 64 then some v else none
  else none

/-- Rust `str::parse::<u64>` on a whole string. -/
def parseU64 (s : String) : Option Nat :=
  match s.data with
  | [] => none
  | '+' :: rest => parseDigits rest
  | l => parseDigits l

/-- The mutable locals of `discovery_only_main` (`src/main.rs` lines 73-79). -/
structure DiscCfg where
  discovery_whitelist : List String
  rtsp_paths_file : String
  mjpeg_paths_file : String
  output_stdout : Bool
  output_file : Option String
  verbose : Bool
  path_delay_ms : Nat
deriving DecidableEq

/-- Initial values of the locals (`src/main.rs` lines 70-79). -/
def initialDiscCfg : DiscCfg :=
  { discovery_whitelist := []
  , rtsp_paths_file := "/etc/arrow/rtsp-paths"
  , mjpeg_paths_file := "/etc/arrow/mjpeg-paths"
  , output_stdout := false
  , output_file := none
  , verbose := false
  , path_delay_ms := 50 }

/-- Outcome of the argument loop: a configuration, or a call to
`discovery_only_usage(code)` which prints usage and exits the process. -/
inductive ParseOutcome where
  | ok (cfg : DiscCfg)
  | exitUsage (code : Nat)
deriving DecidableEq

/-- The argument loop of `discovery_only_main` (`src/main.rs` lines 81-126),
one recursive step per iteration of the `while` loop. -/
def parse_args_loop : List String → DiscCfg → ParseOutcome
  | [], cfg => .ok cfg
  | arg :: rest, cfg =>
    if arg = "-D" then
      match rest with
      | [] => .exitUsage 1
      | v :: rest2 =>
          parse_args_loop rest2
            { cfg with discovery_whitelist := cfg.discovery_whitelist ++ [v] }
    else if arg = "--output" then
      match rest with
      | [] => .ok { cfg with output_stdout := true }
      | v :: rest2 =>
          if v = "json" then parse_args_loop rest2 { cfg with output_stdout := true }
          else parse_args_loop (v :: rest2) { cfg with output_stdout := true }
    else if arg = "-v" ∨ arg = "--verbose" then
      parse_args_loop rest { cfg with verbose := true }
    else if startsWithStr arg "--output-file=" then
      parse_args_loop rest { cfg with output_file := some (stripPrefixLen arg "--output-file=") }
    else if startsWithStr arg "--rtsp-paths=" then
      parse_args_loop rest { cfg with rtsp_paths_file := stripPrefixLen arg "--rtsp-paths=" }
    else if startsWithStr arg "--mjpeg-paths=" then
      parse_args_loop rest { cfg with mjpeg_paths_file := stripPrefixLen arg "--mjpeg-paths=" }
    else if startsWithStr arg "--path-delay-ms=" then
      match parseU64 (stripPrefixLen arg "--path-delay-ms=") with
      | some n => parse_args_loop rest { cfg with path_delay_ms := n }
      | none => parse_args_loop rest cfg
    else if arg = "--help" then .exitUsage 0
    else .exitUsage 1

/-- The post-loop sink default (`src/main.rs` lines 128-130): if neither stdout
nor a file was selected, stdout becomes the sink. -/
def applySinkDefault (cfg : DiscCfg) : DiscCfg :=
  if cfg.output_stdout = false ∧ cfg.output_file = none then
    { cfg with output_stdout := true }
  else cfg

/-- Argument parsing of discovery mode: the loop followed by the sink default. -/
def parse_discovery_args (args : List String) : ParseOutcome :=
  match parse_args_loop args initialDiscCfg with
  | .ok cfg => .ok (applySinkDefault cfg)
  | .exitUsage c => .exitUsage c

/-- The external scan engine (`discovery::scan_network`), an opaque
collaborator: it receives the whitelist, the two path lists, the verbosity
flag and the probe delay, and returns a scan result with an optional survey,
or a scan error. -/
def ScanEngine : Type :=
  List String → List String → List String → Bool → Nat →
    Except String (ScanResult × Option SurveyData)

/-- Construction of the optional metadata block (`src/main.rs` lines 159-169):
built exactly when `verbose` is set, with an empty survey as fallback. -/
def mkDiscoveryMeta (verbose : Bool) (rtspFile : String) (rtsp : List String)
    (mjpegFile : String) (mjpeg : List String) (surveyOpt : Option SurveyData) :
    Option DiscoveryMetadata :=
  if verbose then
    some
      { paths_rtsp_source := rtspFile
      , paths_rtsp_entries := rtsp
      , paths_mjpeg_source := mjpegFile
      , paths_mjpeg_entries := mjpeg
      , survey := surveyOpt.getD [] }
  else none

/-- Observable outcome of one discovery-mode run: a usage exit (`exit 0` for
`--help`, `exit 1` for bad arguments), a scan failure (`exit 2`), or a
successful run with its write sinks (exit 0).  Output-write failures
(`exit 3`) are I/O effects outside this pure model, so success carries the
sinks of `write_discovery_output`. -/
inductive RunResult where
  | usageExit (code : Nat)
  | scanFailure
  | success (outs : Option String × Option (String × String))
deriving DecidableEq

/-- Process exit status of a run result. -/
def statusOf : RunResult → Nat
  | .usageExit c => c
  | .scanFailure => 2
  | .success _ => 0

/-- `discovery_only_main` (`src/main.rs` lines 60-176): parse flags, load the
two path lists (swallowing loader errors), run the external scan, assemble the
optional metadata, and write the output.  The external engine and the captured
UTC timestamp are explicit parameters. -/
def discovery_only_main (args : List String) (fs : FS) (scan_network : ScanEngine)
    (now : Int) : RunResult :=
  match parse_discovery_args args with
  | .exitUsage c => .usageExit c
  | .ok cfg =>
    let rtsp_paths := loadPathsOrDefault fs cfg.rtsp_paths_file
    let mjpeg_paths := loadPathsOrDefault fs cfg.mjpeg_paths_file
    match scan_network cfg.discovery_whitelist rtsp_paths mjpeg_paths cfg.verbose
        cfg.path_delay_ms with
    | .error _ => .scanFailure
    | .ok (scan_result, survey_opt) =>
      let discovery_meta := mkDiscoveryMeta cfg.verbose cfg.rtsp_paths_file rtsp_paths
        cfg.mjpeg_paths_file mjpeg_paths survey_opt
      .success (write_discovery_output scan_result cfg.output_stdout cfg.output_file
        discovery_meta now)

/-- A service with nothing resolvable, used as concrete input. -/
def svc0 : Service := ⟨0, none, none, none⟩

/-- A scan result with a single unresolvable service. -/
def oneResult : ScanResult := ⟨[svc0]⟩

/-- A scan result with 65536 services (one more than `u16::MAX`). -/
def bigResult : ScanResult := ⟨List.replicate 65536 svc0⟩

/-- A filesystem on which no file can be opened. -/
def fsMissing : FS := ⟨fun _ => none⟩

/-- A filesystem on which the default rtsp path file opens but the second line
read fails (a hard I/O error on an already-open file). -/
def fsReadErr : FS :=
  ⟨fun p =>
    if p = "/etc/arrow/rtsp-paths" then
      some [Except.ok "/live", Except.error (IOError.readFailed "io")]
    else none⟩

/-- An engine that always succeeds with a single unresolvable service and no
survey. -/
def engOne : ScanEngine := fun _ _ _ _ _ => .ok (oneResult, none)

/-- A filesystem with one path-list file holding a comment line, a blank line
and one real entry. -/
def fsPathsDemo : FS :=
  ⟨fun p =>
    if p = "/tmp/r.txt" then
      some [Except.ok "# comment", Except.ok "", Except.ok "/live"]
    else none⟩

/-- Unfolding lemma for `dump` on arrays, with `attach` eliminated. -/
theorem dump_arr (elems : List JsonValue) :
    (JsonValue.arr elems).dump =
      "[" ++ String.intercalate "," (elems.map JsonValue.dump) ++ "]" := by
  rw [JsonValue.dump]
  exact congrArg (fun l => "[" ++ String.intercalate "," l ++ "]")
    (List.attach_map_val elems JsonValue.dump)

/-- Unfolding lemma for `dump` on objects, with `attach` eliminated. -/
theorem dump_obj (fields : List (String × JsonValue)) :
    (JsonValue.obj fields).dump =
      "\x7b" ++
        String.intercalate ","
          (fields.map (fun kv => dumpString kv.1 ++ ":" ++ JsonValue.dump kv.2)) ++
      "\x7d" := by
  rw [JsonValue.dump]
  exact congrArg (fun l => "\x7b" ++ String.intercalate "," l ++ "\x7d")
    (List.attach_map_val fields (fun kv => dumpString kv.1 ++ ":" ++ JsonValue.dump kv.2))

/-- Helper: the zero MAC renders as the all-zero colon-hex string. -/
theorem formatMac_zero : formatMac MacAddr.zero = "00:00:00:00:00:00" := by decide

/-- Helper: the zero socket address renders as `0.0.0.0:0`. -/
theorem formatSockAddr_zero : formatSockAddr sockAddrZero = "0.0.0.0:0" := by decide

/-- Helper: on error-free line reads the loader loop keeps exactly the lines
passing the filter, appended to the accumulator in order. -/
theorem collectPaths_ok (lines : List String) :
    ∀ acc, collectPaths (lines.map Except.ok) acc = .ok (acc ++ lines.filter keepLine) := by
  induction lines with
  | nil => intro acc; simp [collectPaths]
  | cons l ls ih =>
      intro acc
      by_cases hk : keepLine l
      · simp [collectPaths, hk, ih, List.filter_cons]
      · simp [collectPaths, hk, ih, List.filter_cons]

/-- Helper: a read error after any number of successful line reads aborts the
loader loop with that error. -/
theorem collectPaths_err (e : IOError) (rest : List (Except IOError String)) :
    ∀ (pre : List String) (acc : List String),
      collectPaths (pre.map Except.ok ++ Except.error e :: rest) acc = .error e := by
  intro pre
  induction pre with
  | nil => intro acc; simp [collectPaths]
  | cons l ls ih => intro acc; simp [collectPaths, ih]

/-- Helper: a string has non-empty character data exactly when it is not the
empty string. -/
theorem data_isEmpty_false_iff (s : String) : ((s.data.isEmpty = false) ↔ s ≠ "") := by
  cases s with
  | mk d =>
    cases d with
    | nil => decide
    | cons c cs =>
      constructor
      · intro _ h
        exact (List.cons_ne_nil c cs) (congrArg String.data h)
      · intro _
        rfl

/-- C3: loading a path-list file keeps no comment line (first character `#`)
and no line that trims to empty, and keeps every other non-empty line,
unmodified, in the file's original order (the result is exactly the in-order
filter of the file's lines). -/
theorem c3_loader_filters (fs : FS) (p : String) (lines : List String)
    (h : fs.files p = some (lines.map Except.ok)) :
    load_paths_file fs p = .ok (lines.filter keepLine) ∧
    (∀ l ∈ lines.filter keepLine, l.data.head? ≠ some '#' ∧ trimS l ≠ "") ∧
    (lines.filter keepLine).Sublist lines ∧
    (∀ l ∈ lines, l.data.head? ≠ some '#' → trimS l ≠ "" → l ∈ lines.filter keepLine) := by
  refine ⟨?_, ?_, List.filter_sublist lines, ?_⟩
  · simp [load_paths_file, h, collectPaths_ok]
  · intro l hl
    have hk : keepLine l = true := List.of_mem_filter hl
    have hk2 := hk
    simp only [keepLine, Bool.and_eq_true, Bool.not_eq_true'] at hk2
    constructor
    · intro hc
      have : startsWithChar l '#' = true := by
        simp [startsWithChar, hc]
      rw [this] at hk2
      simp at hk2
    · intro hc
      have : (trimS l).data.isEmpty = true := by
        rw [hc]
        rfl
      rw [this] at hk2
      simp at hk2
  · intro l hl h1 h2
    refine List.mem_filter.mpr ⟨hl, ?_⟩
    simp only [keepLine, Bool.and_eq_true, Bool.not_eq_true']
    constructor
    · simp [startsWithChar]
      intro hc
      exact absurd hc h1
    · exact (data_isEmpty_false_iff (trimS l)).mpr h2

/-- C3 witness: a concrete file with a comment, a blank line and `/live`. -/
theorem c3_witness :
    fsPathsDemo.files "/tmp/r.txt" = some (["# comment", "", "/live"].map Except.ok) ∧
    load_paths_file fsPathsDemo "/tmp/r.txt" = .ok ["/live"] := by
  refine ⟨by decide, ?_⟩
  have h := (c3_loader_filters fsPathsDemo "/tmp/r.txt" ["# comment", "", "/live"] (by decide)).1
  rw [h]
  decide

/-- C4: a path-list file that cannot be opened yields the open error inside
the loader, which the call site turns into an empty list; a run on such a
filesystem does not fail (it succeeds whenever the arguments parse and the
scan succeeds). -/
theorem c4_unopenable_file (fs : FS) (p : String) (h : fs.files p = none) :
    load_paths_file fs p = .error IOError.openFailed ∧
    loadPathsOrDefault fs p = [] ∧
    (∀ (args : List String) (now : Int) (r : ScanResult) (sv : Option SurveyData),
      (∃ cfg, parse_discovery_args args = .ok cfg) →
      ∃ outs, discovery_only_main args fs (fun _ _ _ _ _ => .ok (r, sv)) now = .success outs) := by
  refine ⟨?_, ?_, ?_⟩
  · simp [load_paths_file, h]
  · simp [loadPathsOrDefault, load_paths_file, h]
  · rintro args now r sv ⟨cfg, hc⟩
    simp only [discovery_only_main, hc]
    exact ⟨_, rfl⟩

/-- C4 witness: the default rtsp path file on an empty filesystem. -/
theorem c4_witness :
    fsMissing.files "/etc/arrow/rtsp-paths" = none ∧
    loadPathsOrDefault fsMissing "/etc/arrow/rtsp-paths" = [] ∧
    ∃ outs, discovery_only_main [] fsMissing (fun _ _ _ _ _ => .ok (oneResult, none)) 0 =
      .success outs :=
  ⟨rfl, (c4_unopenable_file fsMissing "/etc/arrow/rtsp-paths" rfl).2.1,
   (c4_unopenable_file fsMissing "/etc/arrow/rtsp-paths" rfl).2.2 [] 0 oneResult none
     ⟨_, rfl⟩⟩

/-- C2 counterexample: on a filesystem where the default rtsp path file opens
but the second line read fails, the loader does return the error, but
`discovery_only_main` swallows it into an empty path list via
`unwrap_or_default`: the run is indistinguishable from a missing file and does
not fail (exit status 0), so the error does NOT propagate as a failure of
configuration loading. -/
theorem c2_counterexample :
    load_paths_file fsReadErr "/etc/arrow/rtsp-paths" = .error (IOError.readFailed "io") ∧
    loadPathsOrDefault fsReadErr "/etc/arrow/rtsp-paths" = [] ∧
    discovery_only_main [] fsReadErr engOne 0 = discovery_only_main [] fsMissing engOne 0 ∧
    statusOf (discovery_only_main [] fsReadErr engOne 0) = 0 :=
  ⟨rfl, rfl, rfl, rfl⟩

/-- C2 (amended): a read error on an already-open path-list file propagates
out of `load_paths_file` to its caller, but the call site
`load_paths_file(..).unwrap_or_default()` swallows it into an empty list, so
configuration loading does not fail. -/
theorem c2_read_error_swallowed (fs : FS) (p : String) (pre : List String) (e : IOError)
    (rest : List (Except IOError String))
    (h : fs.files p = some (pre.map Except.ok ++ Except.error e :: rest)) :
    load_paths_file fs p = .error e ∧ loadPathsOrDefault fs p = [] := by
  have h1 : load_paths_file fs p = .error e := by
    simp [load_paths_file, h, collectPaths_err]
  exact ⟨h1, by simp [loadPathsOrDefault, h1]⟩

/-- C2 witness: the concrete filesystem with a failing second read. -/
theorem c2_witness :
    fsReadErr.files "/etc/arrow/rtsp-paths" =
      some (["/live"].map Except.ok ++ Except.error (IOError.readFailed "io") :: []) ∧
    load_paths_file fsReadErr "/etc/arrow/rtsp-paths" = .error (IOError.readFailed "io") ∧
    loadPathsOrDefault fsReadErr "/etc/arrow/rtsp-paths" = [] :=
  ⟨rfl,
   (c2_read_error_swallowed fsReadErr "/etc/arrow/rtsp-paths" ["/live"]
      (IOError.readFailed "io") [] rfl).1,
   (c2_read_error_swallowed fsReadErr "/etc/arrow/rtsp-paths" ["/live"]
      (IOError.readFailed "io") [] rfl).2⟩

/-- C5: the serialized document has the `discovery` key iff metadata was
supplied, and the metadata is constructed (by `discovery_only_main`) iff
verbosity was requested. -/
theorem c5_discovery_iff_verbose (r : ScanResult) (meta : Option DiscoveryMetadata)
    (now : Int) (verbose : Bool) (rf mf : String) (rp mp : List String)
    (sv : Option SurveyData) :
    ((scan_result_to_json r meta now).getKey? "discovery").isSome = meta.isSome ∧
    (mkDiscoveryMeta verbose rf rp mf mp sv).isSome = verbose := by
  constructor
  · cases meta with
    | none => simp [scan_result_to_json, JsonValue.getKey?, lookupKey]
    | some d =>
        simp [scan_result_to_json, JsonValue.setKey, setKeyFields, JsonValue.getKey?,
          lookupKey]
  · cases verbose <;> simp [mkDiscoveryMeta]

/-- C6: with both stdout and a file sink configured, one serialization is
computed and the very same bytes are delivered to both sinks. -/
theorem c6_identical_sinks (r : ScanResult) (p : String) (meta : Option DiscoveryMetadata)
    (now : Int) :
    ∃ bytes, write_discovery_output r true (some p) meta now = (some bytes, some (p, bytes)) :=
  ⟨(scan_result_to_json r meta now).dump, rfl⟩

/-- C7: a serialized service element falls back to `00:00:00:00:00:00` without
a MAC, `0.0.0.0:0` without an address, `""` without a path, and always carries
`static_svc = false` and `active = true`. -/
theorem c7_service_field_defaults (svc : Service) (id : Nat) (ls : Int) :
    (svc.mac = none →
      (service_to_json_element id svc ls MacAddr.zero sockAddrZero).getKey? "mac" =
        some (JsonValue.str "00:00:00:00:00:00")) ∧
    (svc.address = none →
      (service_to_json_element id svc ls MacAddr.zero sockAddrZero).getKey? "address" =
        some (JsonValue.str "0.0.0.0:0")) ∧
    (svc.path = none →
      (service_to_json_element id svc ls MacAddr.zero sockAddrZero).getKey? "path" =
        some (JsonValue.str "")) ∧
    (service_to_json_element id svc ls MacAddr.zero sockAddrZero).getKey? "static_svc" =
      some (JsonValue.bool false) ∧
    (service_to_json_element id svc ls MacAddr.zero sockAddrZero).getKey? "active" =
      some (JsonValue.bool true) := by
  refine ⟨?_, ?_, ?_, ?_, ?_⟩
  · intro h
    simp [service_to_json_element, JsonValue.getKey?, lookupKey, h, formatMac_zero]
  · intro h
    simp [service_to_json_element, JsonValue.getKey?, lookupKey, h, formatSockAddr_zero]
  · intro h
    simp [service_to_json_element, JsonValue.getKey?, lookupKey, h]
  · simp [service_to_json_element, JsonValue.getKey?, lookupKey]
  · simp [service_to_json_element, JsonValue.getKey?, lookupKey]

/-- C7 witness: the fully-unresolvable service `svc0`. -/
theorem c7_witness :
    (service_to_json_element 1 svc0 0 MacAddr.zero sockAddrZero).getKey? "mac" =
      some (JsonValue.str "00:00:00:00:00:00") ∧
    (service_to_json_element 1 svc0 0 MacAddr.zero sockAddrZero).getKey? "address" =
      some (JsonValue.str "0.0.0.0:0") ∧
    (service_to_json_element 1 svc0 0 MacAddr.zero sockAddrZero).getKey? "path" =
      some (JsonValue.str "") :=
  ⟨(c7_service_field_defaults svc0 1 0).1 rfl,
   (c7_service_field_defaults svc0 1 0).2.1 rfl,
   (c7_service_field_defaults svc0 1 0).2.2.1 rfl⟩

/-- Helper: the `id` field of a serialized service element is the id it was
built with. -/
theorem idOf_elem (id : Nat) (svc : Service) (ls : Int) (dm : MacAddr) (da : SockAddrV4) :
    idOf (service_to_json_element id svc ls dm da) = some (Int.ofNat id) := by
  simp [idOf, service_to_json_element, JsonValue.getKey?, lookupKey]

/-- Helper: extracting the ids of the mapped service elements yields the
mapped ids. -/
theorem filterMap_idOf (l : List (Nat × Service)) (now : Int) :
    (l.map (fun p =>
        service_to_json_element ((p.1 + 1) % 65536) p.2 now MacAddr.zero sockAddrZero)).filterMap
      idOf = l.map (fun p => Int.ofNat ((p.1 + 1) % 65536)) := by
  induction l with
  | nil => rfl
  | cons x xs ih =>
      simp only [List.map_cons, List.filterMap_cons, idOf_elem, ih]

/-- Helper: mapping a function of the index over `enumFrom` is mapping it over
the corresponding `range'`. -/
theorem enumFrom_map_fst {α β : Type} (f : Nat → β) :
    ∀ (n : Nat) (l : List α),
      (List.enumFrom n l).map (fun p => f p.1) = (List.range' n l.length).map f := by
  intro n l
  induction l generalizing n with
  | nil => rfl
  | cons x xs ih => simp [List.enumFrom, List.range', ih]

/-- Helper: the serialized `services` array of the whole document, as ids and
as length: the element at index `i` carries id `(i + 1) % 2 ^ 16`, whether or
not a discovery block is attached. -/
theorem serviceIds_scan (r : ScanResult) (meta : Option DiscoveryMetadata) (now : Int) :
    serviceIds (scan_result_to_json r meta now) =
      (List.range r.services.length).map (fun i => Int.ofNat ((i + 1) % 65536)) ∧
    servicesCount (scan_result_to_json r meta now) = r.services.length := by
  have harr : ∀ j, j = scan_result_to_json r meta now →
      (scan_result_to_json r meta now).getKey? "services" =
        some (.arr (r.services.enum.map (fun p =>
          service_to_json_element ((p.1 + 1) % 65536) p.2 now MacAddr.zero sockAddrZero))) := by
    intro j _
    cases meta with
    | none => simp [scan_result_to_json, JsonValue.getKey?, lookupKey]
    | some d =>
        simp [scan_result_to_json, JsonValue.setKey, setKeyFields, JsonValue.getKey?,
          lookupKey]
  have h := harr _ rfl
  have hIds : serviceIds (scan_result_to_json r meta now) =
      (r.services.enum.map (fun p =>
        service_to_json_element ((p.1 + 1) % 65536) p.2 now MacAddr.zero
          sockAddrZero)).filterMap idOf := by
    rw [serviceIds, h]
  have hCount : servicesCount (scan_result_to_json r meta now) =
      (r.services.enum.map (fun p =>
        service_to_json_element ((p.1 + 1) % 65536) p.2 now MacAddr.zero
          sockAddrZero)).length := by
    rw [servicesCount, h]
  constructor
  · rw [hIds, filterMap_idOf]
    have he := enumFrom_map_fst (α := Service) (fun i => Int.ofNat ((i + 1) % 65536)) 0
      r.services
    rw [List.enum, he, List.range_eq_range']
  · rw [hCount]
    simp

/-- Helper: `range n` is strictly increasing. -/
theorem pairwiseLtRange (n : Nat) : List.Pairwise (· < ·) (List.range n) := by
  rw [List.pairwise_iff_getElem]
  intro i j hi hj hij
  simpa using hij

/-- C10: the serialized id at zero-based index `i` is `(i + 1) % 2 ^ 16` (the
value is cast to `u16`); with 65536 services the ids wrap around — index 65535
receives id 0 — and are no longer strictly increasing. -/
theorem c10_ids_are_u16_cast (r : ScanResult) (meta : Option DiscoveryMetadata) (now : Int) :
    serviceIds (scan_result_to_json r meta now) =
      (List.range r.services.length).map (fun i => Int.ofNat ((i + 1) % 65536)) ∧
    (serviceIds (scan_result_to_json bigResult none 0))[65535]? = some 0 ∧
    ¬ List.Pairwise (· < ·) (serviceIds (scan_result_to_json bigResult none 0)) := by
  have hlen : bigResult.services.length = 65536 := by
    simp only [bigResult, List.length_replicate]
  refine ⟨(serviceIds_scan r meta now).1, ?_, ?_⟩
  · rw [(serviceIds_scan bigResult none 0).1, hlen]
    rw [List.getElem?_map, List.getElem?_range (by omega : (65535 : Nat) < 65536)]
    rfl
  · intro hp
    rw [(serviceIds_scan bigResult none 0).1, hlen] at hp
    rw [List.pairwise_iff_getElem] at hp
    have h1 := hp 65534 65535 (by simp) (by simp) (by omega)
    simp only [List.getElem_map, List.getElem_range] at h1
    norm_num at h1

/-- C1 counterexample: with 65536 services the serialized ids are NOT the
sequence `1..=N` — the `u16` cast wraps, so the claim fails as stated for
scan results longer than 65535. -/
theorem c1_counterexample :
    ¬ serviceIds (scan_result_to_json bigResult none 0) =
        (List.range' 1 bigResult.services.length).map Int.ofNat := by
  intro hEq
  have hlen : bigResult.services.length = 65536 := by
    simp only [bigResult, List.length_replicate]
  rw [(serviceIds_scan bigResult none 0).1, hlen] at hEq
  have h := congrArg (fun l => l[65535]?) hEq
  simp only [hlen, List.getElem?_map,
    List.getElem?_range (by omega : (65535 : Nat) < 65536),
    List.getElem?_range' ] at h
  norm_num at h

/-- C1 (amended): for a scan result of length `N ≤ 65535` the serialized
`services` array has length `N` and its ids are exactly `1..=N`, 1-based and
strictly increasing, in iteration order; the bound is forced by the `u16`
cast. -/
theorem c1_ids_one_to_n (r : ScanResult) (meta : Option DiscoveryMetadata) (now : Int)
    (h : r.services.length ≤ 65535) :
    servicesCount (scan_result_to_json r meta now) = r.services.length ∧
    serviceIds (scan_result_to_json r meta now) =
      (List.range' 1 r.services.length).map Int.ofNat ∧
    List.Pairwise (· < ·) (serviceIds (scan_result_to_json r meta now)) := by
  have hIds := (serviceIds_scan r meta now).1
  have heq : (List.range r.services.length).map (fun i => Int.ofNat ((i + 1) % 65536)) =
      (List.range' 1 r.services.length).map Int.ofNat := by
    rw [List.range'_eq_map_range, List.map_map]
    apply List.map_congr_left
    intro i hi
    have hi2 : i < r.services.length := List.mem_range.mp hi
    have hlt : i + 1 < 65536 := by omega
    simp only [Function.comp_apply, Nat.mod_eq_of_lt hlt, Nat.add_comm]
  refine ⟨(serviceIds_scan r meta now).2, by rw [hIds, heq], ?_⟩
  rw [hIds, heq, List.range'_eq_map_range, List.map_map]
  refine List.Pairwise.map _ ?_ (pairwiseLtRange _)
  intro a b hab
  simp only [Function.comp_apply]
  exact Int.ofNat_lt.mpr (by omega)

/-- C1 witness: a one-service scan result. -/
theorem c1_witness :
    oneResult.services.length ≤ 65535 ∧
    servicesCount (scan_result_to_json oneResult none 0) = 1 ∧
    serviceIds (scan_result_to_json oneResult none 0) = [1] :=
  ⟨by decide, (c1_ids_one_to_n oneResult none 0 (by decide)).1,
    by
      have h := (c1_ids_one_to_n oneResult none 0 (by decide)).2.1
      simpa using h⟩

/-- Helper: character data of a concatenation. -/
theorem data_append (a b : String) : (a ++ b).data = a.data ++ b.data := rfl

/-- Helper: length of a concatenation. -/
theorem length_append' (a b : String) : (a ++ b).length = a.length + b.length := by
  rcases a with ⟨da⟩
  rcases b with ⟨db⟩
  show (da ++ db).length = da.length + db.length
  exact List.length_append da db

/-- Helper: a concatenation whose left part is longer than `q` differs from
`q`. -/
theorem ne_of_length_lt (p v q : String) (h : q.length < p.length) : p ++ v ≠ q := by
  intro he
  have hl := congrArg String.length he
  rw [length_append'] at hl
  omega

/-- Helper: `isPrefixOf` looks only at the first `p.length` characters. -/
theorem isPrefixOf_append_of_le :
    ∀ (p a : List Char), p.length ≤ a.length →
      ∀ v, p.isPrefixOf (a ++ v) = p.isPrefixOf a
  | [], _, _, _ => by simp [List.isPrefixOf]
  | c :: p, [], h, v => by simp at h
  | c :: p, d :: a, h, v => by
      simp only [List.cons_append, List.isPrefixOf, List.append_eq]
      rw [isPrefixOf_append_of_le p a (by simpa using h) v]

/-- Helper: a flag test against a prefixed argument only sees the prefix when
the tested flag is no longer than it. -/
theorem startsWithStr_append (a v p : String) (h : p.length ≤ a.length) :
    startsWithStr (a ++ v) p = startsWithStr a p := by
  unfold startsWithStr
  rw [data_append]
  exact isPrefixOf_append_of_le p.data a.data h v.data

/-- Helper: stripping the flag prefix recovers the value. -/
theorem stripPrefixLen_append (p v : String) : stripPrefixLen (p ++ v) p = v := by
  unfold stripPrefixLen
  rw [data_append, List.drop_left]

/-- C8: a `--path-delay-ms=<value>` argument whose value fails to parse as a
non-negative 64-bit integer is silently ignored: parsing continues on the
remaining arguments with the configuration unchanged (no usage exit), so the
previous/default delay value is kept. -/
theorem c8_bad_delay_ignored (v : String) (rest : List String) (cfg : DiscCfg)
    (h : parseU64 v = none) :
    parse_args_loop (("--path-delay-ms=" ++ v) :: rest) cfg = parse_args_loop rest cfg := by
  have h1 : ("--path-delay-ms=" ++ v : String) ≠ "-D" :=
    ne_of_length_lt "--path-delay-ms=" v "-D" (by decide)
  have h2 : ("--path-delay-ms=" ++ v : String) ≠ "--output" :=
    ne_of_length_lt "--path-delay-ms=" v "--output" (by decide)
  have h3 : ("--path-delay-ms=" ++ v : String) ≠ "-v" :=
    ne_of_length_lt "--path-delay-ms=" v "-v" (by decide)
  have h4 : ("--path-delay-ms=" ++ v : String) ≠ "--verbose" :=
    ne_of_length_lt "--path-delay-ms=" v "--verbose" (by decide)
  have h5 : startsWithStr ("--path-delay-ms=" ++ v) "--output-file=" = false := by
    rw [startsWithStr_append "--path-delay-ms=" v "--output-file=" (by decide)]
    decide
  have h6 : startsWithStr ("--path-delay-ms=" ++ v) "--rtsp-paths=" = false := by
    rw [startsWithStr_append "--path-delay-ms=" v "--rtsp-paths=" (by decide)]
    decide
  have h7 : startsWithStr ("--path-delay-ms=" ++ v) "--mjpeg-paths=" = false := by
    rw [startsWithStr_append "--path-delay-ms=" v "--mjpeg-paths=" (by decide)]
    decide
  have h8 : startsWithStr ("--path-delay-ms=" ++ v) "--path-delay-ms=" = true := by
    rw [startsWithStr_append "--path-delay-ms=" v "--path-delay-ms=" (by decide)]
    decide
  rw [parse_args_loop.eq_def]
  simp [if_neg h1, if_neg h2, if_neg (not_or.mpr ⟨h3, h4⟩), h5, h6, h7, h8,
    stripPrefixLen_append, h]

/-- C8 witness: the scenario `--path-delay-ms=notanumber` keeps the default
50 ms configuration and produces no usage exit. -/
theorem c8_witness :
    parseU64 "notanumber" = none ∧
    parse_args_loop [("--path-delay-ms=" ++ "notanumber")] initialDiscCfg =
      ParseOutcome.ok initialDiscCfg ∧
    initialDiscCfg.path_delay_ms = 50 := by
  refine ⟨by decide, ?_, rfl⟩
  rw [c8_bad_delay_ignored "notanumber" [] initialDiscCfg (by decide)]
  rfl

/-- Unfolding lemma for `dump` on numbers. -/
theorem dump_num (n : Int) : (JsonValue.num n).dump = Int.repr n := by
  rw [JsonValue.dump]

/-- Unfolding lemma for `dump` on strings. -/
theorem dump_str (s : String) : (JsonValue.str s).dump = dumpString s := by
  rw [JsonValue.dump]

/-- Unfolding lemma for `dump` on booleans. -/
theorem dump_bool (b : Bool) : (JsonValue.bool b).dump = cond b "true" "false" := by
  rw [JsonValue.dump]

/-- C9 (amended): the discovery pipeline is a pure function of the arguments,
the filesystem snapshot, the scan-engine outcome and the captured UTC
timestamp: the exit status never depends on the timestamp, and runs with equal
timestamps (and equal remaining inputs) are identical. -/
theorem c9_status_and_determinism (args : List String) (fs : FS) (eng : ScanEngine)
    (now₁ now₂ : Int) :
    statusOf (discovery_only_main args fs eng now₁) =
      statusOf (discovery_only_main args fs eng now₂) ∧
    (now₁ = now₂ →
      discovery_only_main args fs eng now₁ = discovery_only_main args fs eng now₂) := by
  constructor
  · unfold discovery_only_main
    split
    · rfl
    · simp only []
      split
      · rfl
      · rfl
  · intro hnow
    rw [hnow]

/-- C9 witness: concrete runs with different and with equal timestamps. -/
theorem c9_witness :
    statusOf (discovery_only_main [] fsMissing engOne 0) =
      statusOf (discovery_only_main [] fsMissing engOne 1) ∧
    discovery_only_main [] fsMissing engOne 5 = discovery_only_main [] fsMissing engOne 5 :=
  ⟨(c9_status_and_determinism [] fsMissing engOne 0 1).1,
   (c9_status_and_determinism [] fsMissing engOne 5 5).2 rfl⟩

/-- C9 counterexample: two runs with identical arguments, filesystem and scan
outcome but different wall-clock instants produce different output bytes (the
serialized `last_seen` field differs), so the pipeline is not a pure function
of (arguments, filesystem snapshot) alone. -/
theorem c9_counterexample :
    discovery_only_main [] fsMissing engOne 0 ≠ discovery_only_main [] fsMissing engOne 1 := by
  intro hEq
  have h0 : discovery_only_main [] fsMissing engOne 0 =
      .success (some (scan_result_to_json oneResult none 0).dump, none) := rfl
  have h1 : discovery_only_main [] fsMissing engOne 1 =
      .success (some (scan_result_to_json oneResult none 1).dump, none) := rfl
  rw [h0, h1] at hEq
  simp only [RunResult.success.injEq, Prod.mk.injEq, Option.some.injEq, and_true] at hEq
  have e0 : scan_result_to_json oneResult none 0 = JsonValue.obj
      [("services", JsonValue.arr [JsonValue.obj
        [("id", .num 1), ("svc_type", .num 0), ("mac", .str "00:00:00:00:00:00"),
         ("address", .str "0.0.0.0:0"), ("path", .str ""), ("static_svc", .bool false),
         ("last_seen", .num 0), ("active", .bool true)]])] := rfl
  have e1 : scan_result_to_json oneResult none 1 = JsonValue.obj
      [("services", JsonValue.arr [JsonValue.obj
        [("id", .num 1), ("svc_type", .num 0), ("mac", .str "00:00:00:00:00:00"),
         ("address", .str "0.0.0.0:0"), ("path", .str ""), ("static_svc", .bool false),
         ("last_seen", .num 1), ("active", .bool true)]])] := rfl
  rw [e0, e1] at hEq
  simp only [dump_obj, dump_arr, dump_num, dump_str, dump_bool, List.map_cons,
    List.map_nil] at hEq
  exact absurd hEq (by decide)
